import Mathlib

/-!
Verification of the RentFlow core lease program
(`src/programs/rentflow-core/src/lib.rs`).

The four instruction handlers — `initialize_lease`, `sign_lease`,
`update_lease_status`, `verify_lease` — are embedded as pure Lean
functions.  The host runtime's ambient context (verified signer,
trusted clock) is passed as explicit arguments.  Account mutation is
modelled by state passing: a mutating handler takes the `Lease` record
and returns the instruction result together with the final record
state, so that "no field changed" is expressible.
-/

/-- Lease lifecycle status, mirroring `enum LeaseStatus` in the source. -/
inductive LeaseStatus where
  | Pending
  | Active
  | Terminated
  | Completed
deriving DecidableEq

/-- Error codes, mirroring `enum LeaseError` in the source. -/
inductive LeaseError where
  | LeaseIdTooLong
  | InvalidRentAmount
  | InvalidDateRange
  | UnauthorizedSigner
  | LeaseNotPending
  | AlreadySigned
  | LeaseNotEnded
  | InvalidStatusTransition
deriving DecidableEq

/-- A 32-byte digest (`[u8; 32]`), modelled as a list of byte values. -/
abbrev Digest := List Nat

/-- The all-zero digest, `[0; 32]`. -/
def zeroDigest : Digest := List.replicate 32 0

/-- The persisted `Lease` account, mirroring `struct Lease` in the source.
Wallet public keys are modelled as natural numbers; `i64` timestamps as `Int`;
`u64` amounts as `Nat`. -/
structure Lease where
  lease_id : String
  lease_hash : Digest
  manager_wallet : Nat
  tenant_wallet : Nat
  monthly_rent : Nat
  security_deposit : Nat
  start_date : Int
  end_date : Int
  manager_signed : Bool
  tenant_signed : Bool
  manager_signature : Digest
  tenant_signature : Digest
  status : LeaseStatus
  created_at : Int
  activated_at : Int
  bump : Nat
deriving DecidableEq

/-- `initialize_lease`: validates `lease_id.len() <= 64`, `monthly_rent > 0`,
`end_date > start_date` in that order (each `require!` aborts on failure), then
fills in the fresh account.  `manager` is `ctx.accounts.manager.key()` and `now`
is `Clock::get()?.unix_timestamp`. -/
def initialize_lease (manager : Nat) (now : Int)
    (lease_id : String) (lease_hash : Digest) (tenant_wallet : Nat)
    (monthly_rent security_deposit : Nat) (start_date end_date : Int)
    (bump : Nat) : Except LeaseError Lease :=
  if lease_id.length ≤ 64 then
   if monthly_rent > 0 then
    if end_date > start_date then .ok
    { lease_id := lease_id
      lease_hash := lease_hash
      manager_wallet := manager
      tenant_wallet := tenant_wallet
      monthly_rent := monthly_rent
      security_deposit := security_deposit
      start_date := start_date
      end_date := end_date
      manager_signed := false
      tenant_signed := false
      manager_signature := zeroDigest
      tenant_signature := zeroDigest
      status := .Pending
      created_at := now
      activated_at := 0
      bump := bump }
    else .error .InvalidDateRange
   else .error .InvalidRentAmount
  else .error .LeaseIdTooLong

/-- The if/else-if/else chain of `sign_lease` that determines which party is
signing and records the signature, or fails. -/
def signBranch (signer : Nat) (signature_hash : Digest) (lease : Lease) :
    Except LeaseError Lease :=
  if signer = lease.manager_wallet then
    if lease.manager_signed then .error .AlreadySigned
    else .ok { lease with manager_signed := true,
                          manager_signature := signature_hash }
  else if signer = lease.tenant_wallet then
    if lease.tenant_signed then .error .AlreadySigned
    else .ok { lease with tenant_signed := true,
                          tenant_signature := signature_hash }
  else .error .UnauthorizedSigner

/-- `sign_lease`: requires `status == Pending`, records the matching party's
signature via `signBranch`, then auto-activates when both flags are set.
Returns the instruction result and the final account state. -/
def sign_lease (signer : Nat) (now : Int) (signature_hash : Digest)
    (lease : Lease) : Except LeaseError Unit × Lease :=
  if lease.status = .Pending then
    match signBranch signer signature_hash lease with
    | .error e => (.error e, lease)
    | .ok l =>
      if l.manager_signed && l.tenant_signed then
        (.ok (), { l with status := .Active, activated_at := now })
      else
        (.ok (), l)
  else
    (.error .LeaseNotPending, lease)

/-- `update_lease_status`: requires the signer to be manager or tenant, then
validates the `(current, requested)` transition pair; on an allowed transition
sets `status = new_status`. -/
def update_lease_status (signer : Nat) (now : Int) (new_status : LeaseStatus)
    (lease : Lease) : Except LeaseError Unit × Lease :=
  if signer = lease.manager_wallet ∨ signer = lease.tenant_wallet then
    match lease.status, new_status with
    | .Active, .Terminated => (.ok (), { lease with status := new_status })
    | .Active, .Completed =>
        if now ≥ lease.end_date then
          (.ok (), { lease with status := new_status })
        else
          (.error .LeaseNotEnded, lease)
    | _, _ => (.error .InvalidStatusTransition, lease)
  else
    (.error .UnauthorizedSigner, lease)

/-- `verify_lease`: read-only; returns
`manager_signed && tenant_signed && status == Active`. -/
def verify_lease (lease : Lease) : Except LeaseError Bool :=
  .ok (lease.manager_signed && lease.tenant_signed
        && decide (lease.status = .Active))

/-- A record is `Initialized` if some successful `initialize_lease` call
produces it. -/
def Initialized (l : Lease) : Prop :=
  ∃ manager now lease_id lease_hash tenant_wallet monthly_rent
    security_deposit start_date end_date bump,
    initialize_lease manager now lease_id lease_hash tenant_wallet
      monthly_rent security_deposit start_date end_date bump = .ok l

/-- One successful mutating instruction (`sign_lease` or
`update_lease_status`) taking record `l` to record `l'`. -/
inductive Step : Lease → Lease → Prop where
  | sign (signer : Nat) (now : Int) (sig : Digest) {l l' : Lease} :
      sign_lease signer now sig l = (.ok (), l') → Step l l'
  | update (signer : Nat) (now : Int) (ns : LeaseStatus) {l l' : Lease} :
      update_lease_status signer now ns l = (.ok (), l') → Step l l'

/-- Zero or more successful mutating instructions. -/
def ReachFrom : Lease → Lease → Prop := Relation.ReflTransGen Step

/-- A record state reachable from some `initialize_lease` by successful
instructions. -/
def Reachable (l : Lease) : Prop :=
  ∃ l0, Initialized l0 ∧ ReachFrom l0 l

/-- One successful mutating instruction in which any `sign_lease` call was
supplied a non-zero `signature_hash`. -/
inductive StepNZ : Lease → Lease → Prop where
  | sign (signer : Nat) (now : Int) (sig : Digest) {l l' : Lease} :
      sig ≠ zeroDigest → sign_lease signer now sig l = (.ok (), l') →
      StepNZ l l'
  | update (signer : Nat) (now : Int) (ns : LeaseStatus) {l l' : Lease} :
      update_lease_status signer now ns l = (.ok (), l') → StepNZ l l'

/-- Reachable from some `initialize_lease` by successful instructions whose
supplied signature hashes are all non-zero. -/
def ReachableNZ (l : Lease) : Prop :=
  ∃ l0, Initialized l0 ∧ Relation.ReflTransGen StepNZ l0 l

/-- A non-zero 32-byte digest used as a concrete signature hash. -/
def sigOne : Digest := List.replicate 32 1

/-- Concrete freshly-initialized lease used in concrete evaluations:
the result of `initialize_lease 1 100 "L1" zeroDigest 2 1000 500 1000 2000
255`. -/
def leaseP : Lease :=
  { lease_id := "L1"
    lease_hash := zeroDigest
    manager_wallet := 1
    tenant_wallet := 2
    monthly_rent := 1000
    security_deposit := 500
    start_date := 1000
    end_date := 2000
    manager_signed := false
    tenant_signed := false
    manager_signature := zeroDigest
    tenant_signature := zeroDigest
    status := .Pending
    created_at := 100
    activated_at := 0
    bump := 255 }

/-- Concrete fully-signed active lease used in concrete evaluations. -/
def leaseA : Lease :=
  { leaseP with
    manager_signed := true
    tenant_signed := true
    manager_signature := sigOne
    tenant_signature := sigOne
    status := .Active
    activated_at := 150 }

/-- The state after the manager signs `leaseP` supplying the all-zero
signature hash: the flag flips but the signature field stays all-zero. -/
def leaseZ : Lease :=
  { leaseP with
    manager_signed := true
    manager_signature := zeroDigest }

/-- The state after the manager signs `leaseP` supplying the non-zero hash
`sigOne`. -/
def leaseM : Lease :=
  { leaseP with
    manager_signed := true
    manager_signature := sigOne }

/-- A self-dealing lease: the result of `initialize_lease` when the supplied
counter-party equals the caller, so both wallets are `7`. -/
def leaseS : Lease :=
  { leaseP with
    manager_wallet := 7
    tenant_wallet := 7 }

example : initialize_lease 1 100 "L1" zeroDigest 2 1000 500 1000 2000 255
    = .ok leaseP := by rfl

example : sign_lease 1 150 sigOne leaseP
    = (.ok (), { leaseP with manager_signed := true,
                             manager_signature := sigOne }) := by rfl

example : sign_lease 99 150 sigOne leaseA = (.error .LeaseNotPending, leaseA)
    := by rfl

/-- Inversion for a successful `signBranch`. -/
theorem signBranch_ok_inv {signer : Nat} {sig : Digest} {l m : Lease}
    (h : signBranch signer sig l = .ok m) :
    (signer = l.manager_wallet ∧ l.manager_signed = false ∧
      m = { l with manager_signed := true, manager_signature := sig }) ∨
    (¬ signer = l.manager_wallet ∧ signer = l.tenant_wallet ∧
      l.tenant_signed = false ∧
      m = { l with tenant_signed := true, tenant_signature := sig }) := by
  unfold signBranch at h
  by_cases h1 : signer = l.manager_wallet
  · rw [if_pos h1] at h
    by_cases h2 : l.manager_signed
    · rw [if_pos h2] at h
      exact absurd h (by simp)
    · rw [if_neg h2] at h
      left
      exact ⟨h1, by simpa using h2, by simpa using h.symm⟩
  · rw [if_neg h1] at h
    by_cases h3 : signer = l.tenant_wallet
    · rw [if_pos h3] at h
      by_cases h4 : l.tenant_signed
      · rw [if_pos h4] at h
        exact absurd h (by simp)
      · rw [if_neg h4] at h
        right
        exact ⟨h1, h3, by simpa using h4, by simpa using h.symm⟩
    · rw [if_neg h3] at h
      exact absurd h (by simp)

/-- Inversion for a successful `sign_lease`. -/
theorem sign_ok_inv {signer : Nat} {now : Int} {sig : Digest} {l l' : Lease}
    (h : sign_lease signer now sig l = (.ok (), l')) :
    l.status = .Pending ∧
    ∃ m, signBranch signer sig l = .ok m ∧
      ((m.manager_signed = true ∧ m.tenant_signed = true ∧
         l' = { m with status := .Active, activated_at := now }) ∨
       (¬ (m.manager_signed = true ∧ m.tenant_signed = true) ∧ l' = m)) := by
  unfold sign_lease at h
  split at h
  · rename_i hp
    refine ⟨hp, ?_⟩
    split at h
    · exact absurd (congrArg Prod.fst h) (by simp)
    · rename_i m heq
      refine ⟨m, heq, ?_⟩
      split at h
      · rename_i hboth
        rw [Bool.and_eq_true] at hboth
        exact Or.inl ⟨hboth.1, hboth.2, (congrArg Prod.snd h).symm⟩
      · rename_i hboth
        rw [Bool.and_eq_true] at hboth
        exact Or.inr ⟨hboth, (congrArg Prod.snd h).symm⟩
  · exact absurd (congrArg Prod.fst h) (by simp)

/-- Case analysis on `sign_lease`: it either fails with the record unchanged,
or succeeds. -/
theorem sign_cases (signer : Nat) (now : Int) (sig : Digest) (l : Lease) :
    (∃ e, sign_lease signer now sig l = (.error e, l)) ∨
    (∃ l', sign_lease signer now sig l = (.ok (), l')) := by
  unfold sign_lease
  split
  · split
    · exact Or.inl ⟨_, rfl⟩
    · split
      · exact Or.inr ⟨_, rfl⟩
      · exact Or.inr ⟨_, rfl⟩
  · exact Or.inl ⟨_, rfl⟩

/-- Inversion for a failing `sign_lease`: the record is returned unchanged. -/
theorem sign_error_frame {signer : Nat} {now : Int} {sig : Digest}
    {l : Lease} {e : LeaseError}
    (h : (sign_lease signer now sig l).1 = .error e) :
    (sign_lease signer now sig l).2 = l := by
  rcases sign_cases signer now sig l with ⟨e', he⟩ | ⟨l', hok⟩
  · rw [he]
  · rw [hok] at h
    exact absurd h (by simp)

/-- Inversion for a successful `update_lease_status`. -/
theorem update_ok_inv {signer : Nat} {now : Int} {ns : LeaseStatus}
    {l l' : Lease}
    (h : update_lease_status signer now ns l = (.ok (), l')) :
    (signer = l.manager_wallet ∨ signer = l.tenant_wallet) ∧
    l.status = .Active ∧
    (ns = .Terminated ∨ (ns = .Completed ∧ now ≥ l.end_date)) ∧
    l' = { l with status := ns } := by
  unfold update_lease_status at h
  split at h
  · rename_i hauth
    refine ⟨hauth, ?_⟩
    split at h
    · rename_i heq
      exact ⟨heq, Or.inl rfl, (congrArg Prod.snd h).symm⟩
    · rename_i heq
      split at h
      · rename_i ht
        exact ⟨heq, Or.inr ⟨rfl, ht⟩, (congrArg Prod.snd h).symm⟩
      · exact absurd (congrArg Prod.fst h) (by simp)
    · exact absurd (congrArg Prod.fst h) (by simp)
  · exact absurd (congrArg Prod.fst h) (by simp)

/-- Case analysis on `update_lease_status`: it either fails with the record
unchanged, or succeeds. -/
theorem update_cases (signer : Nat) (now : Int) (ns : LeaseStatus)
    (l : Lease) :
    (∃ e, update_lease_status signer now ns l = (.error e, l)) ∨
    (∃ l', update_lease_status signer now ns l = (.ok (), l')) := by
  unfold update_lease_status
  split
  · split
    · exact Or.inr ⟨_, rfl⟩
    · split
      · exact Or.inr ⟨_, rfl⟩
      · exact Or.inl ⟨_, rfl⟩
    · exact Or.inl ⟨_, rfl⟩
  · exact Or.inl ⟨_, rfl⟩

/-- Inversion for a failing `update_lease_status`: the record is returned
unchanged. -/
theorem update_error_frame {signer : Nat} {now : Int} {ns : LeaseStatus}
    {l : Lease} {e : LeaseError}
    (h : (update_lease_status signer now ns l).1 = .error e) :
    (update_lease_status signer now ns l).2 = l := by
  rcases update_cases signer now ns l with ⟨e', he⟩ | ⟨l', hok⟩
  · rw [he]
  · rw [hok] at h
    exact absurd h (by simp)

/-- Inversion for a successful `initialize_lease`: the preconditions held and
the record is fully determined by the inputs. -/
theorem initialize_ok_inv {manager : Nat} {now : Int} {lease_id : String}
    {lease_hash : Digest} {tenant_wallet : Nat}
    {monthly_rent security_deposit : Nat} {start_date end_date : Int}
    {bump : Nat} {l : Lease}
    (h : initialize_lease manager now lease_id lease_hash tenant_wallet
          monthly_rent security_deposit start_date end_date bump = .ok l) :
    lease_id.length ≤ 64 ∧ 0 < monthly_rent ∧ start_date < end_date ∧
    l = { lease_id := lease_id
          lease_hash := lease_hash
          manager_wallet := manager
          tenant_wallet := tenant_wallet
          monthly_rent := monthly_rent
          security_deposit := security_deposit
          start_date := start_date
          end_date := end_date
          manager_signed := false
          tenant_signed := false
          manager_signature := zeroDigest
          tenant_signature := zeroDigest
          status := .Pending
          created_at := now
          activated_at := 0
          bump := bump } := by
  unfold initialize_lease at h
  by_cases h1 : lease_id.length ≤ 64
  · rw [if_pos h1] at h
    by_cases h2 : monthly_rent > 0
    · rw [if_pos h2] at h
      by_cases h3 : end_date > start_date
      · rw [if_pos h3] at h
        exact ⟨h1, h2, h3, by simpa using h.symm⟩
      · rw [if_neg h3] at h
        exact absurd h (by simp)
    · rw [if_neg h2] at h
      exact absurd h (by simp)
  · rw [if_neg h1] at h
    exact absurd h (by simp)

/-- C1: `update_lease_status`, invoked by a caller matching the record's
manager or tenant wallet, permits exactly two transitions — Active→Terminated
unconditionally and Active→Completed only when `now ≥ end_date` (failing with
`LeaseNotEnded` when `now < end_date`) — fails with `InvalidStatusTransition`
on every other (current, requested) pair, and on an allowed transition changes
only the status field. -/
theorem update_status_transition_table (l : Lease) (signer : Nat) (now : Int)
    (ns : LeaseStatus)
    (hauth : signer = l.manager_wallet ∨ signer = l.tenant_wallet) :
    (l.status = .Active ∧ ns = .Terminated →
      update_lease_status signer now ns l
        = (.ok (), { l with status := .Terminated })) ∧
    (l.status = .Active ∧ ns = .Completed ∧ now ≥ l.end_date →
      update_lease_status signer now ns l
        = (.ok (), { l with status := .Completed })) ∧
    (l.status = .Active ∧ ns = .Completed ∧ now < l.end_date →
      update_lease_status signer now ns l = (.error .LeaseNotEnded, l)) ∧
    (¬ (l.status = .Active ∧ (ns = .Terminated ∨ ns = .Completed)) →
      update_lease_status signer now ns l
        = (.error .InvalidStatusTransition, l)) := by
  refine ⟨?_, ?_, ?_, ?_⟩
  · rintro ⟨hs, rfl⟩
    unfold update_lease_status
    rw [if_pos hauth, hs]
  · rintro ⟨hs, rfl, ht⟩
    unfold update_lease_status
    rw [if_pos hauth, hs]
    exact if_pos ht
  · rintro ⟨hs, rfl, ht⟩
    unfold update_lease_status
    rw [if_pos hauth, hs]
    exact if_neg (not_le.mpr ht)
  · intro hno
    unfold update_lease_status
    rw [if_pos hauth]
    cases hs : l.status <;> cases ns <;> first
      | exact (hno ⟨hs, Or.inl rfl⟩).elim
      | exact (hno ⟨hs, Or.inr rfl⟩).elim
      | rfl

/-- C1 witness: concrete evaluation of the transition table on an active
lease. -/
theorem update_status_transition_table_witness :
    (leaseA.status = .Active ∧ LeaseStatus.Terminated = .Terminated →
      update_lease_status 1 2500 .Terminated leaseA
        = (.ok (), { leaseA with status := .Terminated })) ∧
    (leaseA.status = .Active ∧ LeaseStatus.Terminated = .Completed ∧
        (2500 : Int) ≥ leaseA.end_date →
      update_lease_status 1 2500 .Terminated leaseA
        = (.ok (), { leaseA with status := .Completed })) ∧
    (leaseA.status = .Active ∧ LeaseStatus.Terminated = .Completed ∧
        (2500 : Int) < leaseA.end_date →
      update_lease_status 1 2500 .Terminated leaseA
        = (.error .LeaseNotEnded, leaseA)) ∧
    (¬ (leaseA.status = .Active ∧
        (LeaseStatus.Terminated = .Terminated ∨
         LeaseStatus.Terminated = .Completed)) →
      update_lease_status 1 2500 .Terminated leaseA
        = (.error .InvalidStatusTransition, leaseA)) :=
  update_status_transition_table leaseA 1 2500 .Terminated (Or.inl (by rfl))

/-- C2: on a pending record with `activated_at = 0`, a successful `sign_lease`
sets the matched party's flag and signature; it activates the lease (status
Active, `activated_at = now`) exactly when the other party had already signed,
and otherwise leaves the record Pending with `activated_at = 0`. -/
theorem sign_pending_effect (l : Lease) (signer : Nat) (now : Int)
    (sig : Digest) (l' : Lease)
    (hp : l.status = .Pending) (ha0 : l.activated_at = 0)
    (hok : sign_lease signer now sig l = (.ok (), l')) :
    (signer = l.manager_wallet →
      l'.manager_signed = true ∧ l'.manager_signature = sig ∧
      (l.tenant_signed = true →
        l'.status = .Active ∧ l'.activated_at = now) ∧
      (l.tenant_signed = false →
        l'.status = .Pending ∧ l'.activated_at = 0)) ∧
    (¬ signer = l.manager_wallet → signer = l.tenant_wallet →
      l'.tenant_signed = true ∧ l'.tenant_signature = sig ∧
      (l.manager_signed = true →
        l'.status = .Active ∧ l'.activated_at = now) ∧
      (l.manager_signed = false →
        l'.status = .Pending ∧ l'.activated_at = 0)) := by
  obtain ⟨-, m, heq, hres⟩ := sign_ok_inv hok
  constructor
  · intro hm
    rcases signBranch_ok_inv heq with ⟨-, -, rfl⟩ | ⟨hnm, -, -, -⟩
    · rcases hres with ⟨-, h2, rfl⟩ | ⟨hno, rfl⟩
      · refine ⟨rfl, rfl, fun _ => ⟨rfl, rfl⟩, fun hts => ?_⟩
        have h2' : l.tenant_signed = true := h2
        rw [hts] at h2'
        exact absurd h2' (by decide)
      · refine ⟨rfl, rfl, fun hts => absurd ⟨rfl, hts⟩ hno,
          fun _ => ⟨hp, ha0⟩⟩
    · exact absurd hm hnm
  · intro hnm hts
    rcases signBranch_ok_inv heq with ⟨hm, -, -⟩ | ⟨-, -, -, rfl⟩
    · exact absurd hm hnm
    · rcases hres with ⟨h1, -, rfl⟩ | ⟨hno, rfl⟩
      · refine ⟨rfl, rfl, fun _ => ⟨rfl, rfl⟩, fun hms => ?_⟩
        have h1' : l.manager_signed = true := h1
        rw [hms] at h1'
        exact absurd h1' (by decide)
      · refine ⟨rfl, rfl, fun hms => absurd ⟨hms, rfl⟩ hno,
          fun _ => ⟨hp, ha0⟩⟩

/-- C2 witness: the manager signing first on the concrete pending lease. -/
theorem sign_pending_effect_witness :
    ((1 : Nat) = leaseP.manager_wallet →
      Lease.manager_signed
        { leaseP with manager_signed := true,
                      manager_signature := sigOne } = true ∧
      Lease.manager_signature
        { leaseP with manager_signed := true,
                      manager_signature := sigOne } = sigOne ∧
      (leaseP.tenant_signed = true →
        Lease.status { leaseP with manager_signed := true,
                                   manager_signature := sigOne } = .Active ∧
        Lease.activated_at { leaseP with manager_signed := true,
                                         manager_signature := sigOne }
          = (150 : Int)) ∧
      (leaseP.tenant_signed = false →
        Lease.status { leaseP with manager_signed := true,
                                   manager_signature := sigOne } = .Pending ∧
        Lease.activated_at { leaseP with manager_signed := true,
                                         manager_signature := sigOne } = 0)) ∧
    (¬ (1 : Nat) = leaseP.manager_wallet → (1 : Nat) = leaseP.tenant_wallet →
      Lease.tenant_signed
        { leaseP with manager_signed := true,
                      manager_signature := sigOne } = true ∧
      Lease.tenant_signature
        { leaseP with manager_signed := true,
                      manager_signature := sigOne } = sigOne ∧
      (leaseP.manager_signed = true →
        Lease.status { leaseP with manager_signed := true,
                                   manager_signature := sigOne } = .Active ∧
        Lease.activated_at { leaseP with manager_signed := true,
                                         manager_signature := sigOne }
          = (150 : Int)) ∧
      (leaseP.manager_signed = false →
        Lease.status { leaseP with manager_signed := true,
                                   manager_signature := sigOne } = .Pending ∧
        Lease.activated_at { leaseP with manager_signed := true,
                                         manager_signature := sigOne } = 0)) :=
  sign_pending_effect leaseP 1 150 sigOne
    { leaseP with manager_signed := true, manager_signature := sigOne }
    (by rfl) (by rfl) (by rfl)

/-- C3: `verify_lease` never errors and returns true exactly when both
parties signed and the status is Active; it takes the record immutably, so it
mutates nothing. -/
theorem verify_iff_active_and_signed (l : Lease) :
    ∃ b : Bool, verify_lease l = .ok b ∧
      (b = true ↔ (l.manager_signed = true ∧ l.tenant_signed = true ∧
                    l.status = .Active)) := by
  refine ⟨_, rfl, ?_⟩
  simp [Bool.and_assoc, Bool.and_eq_true, decide_eq_true_eq, and_assoc]

/-- C8: `initialize_lease` validates in order with the first failure winning
(`LeaseIdTooLong`, then `InvalidRentAmount`, then `InvalidDateRange`), and on
valid inputs creates the Pending record with unsigned flags, zero signatures,
`created_at = now`, `activated_at = 0`, the caller as manager and the supplied
counter-party as tenant, on which `verify_lease` returns false. -/
theorem initialize_validation_order (manager : Nat) (now : Int)
    (lease_id : String) (lease_hash : Digest) (tenant_wallet : Nat)
    (monthly_rent security_deposit : Nat) (start_date end_date : Int)
    (bump : Nat) :
    (64 < lease_id.length →
      initialize_lease manager now lease_id lease_hash tenant_wallet
        monthly_rent security_deposit start_date end_date bump
        = .error .LeaseIdTooLong) ∧
    (lease_id.length ≤ 64 → monthly_rent = 0 →
      initialize_lease manager now lease_id lease_hash tenant_wallet
        monthly_rent security_deposit start_date end_date bump
        = .error .InvalidRentAmount) ∧
    (lease_id.length ≤ 64 → 0 < monthly_rent → end_date ≤ start_date →
      initialize_lease manager now lease_id lease_hash tenant_wallet
        monthly_rent security_deposit start_date end_date bump
        = .error .InvalidDateRange) ∧
    (lease_id.length ≤ 64 → 0 < monthly_rent → start_date < end_date →
      ∃ l, initialize_lease manager now lease_id lease_hash tenant_wallet
            monthly_rent security_deposit start_date end_date bump = .ok l ∧
        l.status = .Pending ∧ l.manager_signed = false ∧
        l.tenant_signed = false ∧ l.manager_signature = zeroDigest ∧
        l.tenant_signature = zeroDigest ∧ l.created_at = now ∧
        l.activated_at = 0 ∧ l.manager_wallet = manager ∧
        l.tenant_wallet = tenant_wallet ∧ verify_lease l = .ok false) := by
  refine ⟨?_, ?_, ?_, ?_⟩
  · intro h1
    unfold initialize_lease
    exact if_neg (not_le.mpr h1)
  · intro h1 h2
    unfold initialize_lease
    rw [if_pos h1]
    exact if_neg (by simp [h2])
  · intro h1 h2 h3
    unfold initialize_lease
    rw [if_pos h1, if_pos h2]
    exact if_neg (not_lt.mpr h3)
  · intro h1 h2 h3
    refine ⟨{ lease_id := lease_id, lease_hash := lease_hash,
              manager_wallet := manager, tenant_wallet := tenant_wallet,
              monthly_rent := monthly_rent,
              security_deposit := security_deposit,
              start_date := start_date, end_date := end_date,
              manager_signed := false, tenant_signed := false,
              manager_signature := zeroDigest,
              tenant_signature := zeroDigest,
              status := .Pending, created_at := now, activated_at := 0,
              bump := bump },
      ?_, rfl, rfl, rfl, rfl, rfl, rfl, rfl, rfl, rfl, rfl⟩
    unfold initialize_lease
    rw [if_pos h1, if_pos h2, if_pos h3]

/-- C8 witness: concrete evaluation of all four validation branches. -/
theorem initialize_validation_order_witness :
    initialize_lease 1 100 (String.mk (List.replicate 65 'a')) zeroDigest 2
        1000 500 1000 2000 255 = .error .LeaseIdTooLong ∧
    initialize_lease 1 100 "L1" zeroDigest 2 0 500 1000 2000 255
        = .error .InvalidRentAmount ∧
    initialize_lease 1 100 "L1" zeroDigest 2 1000 500 2000 1000 255
        = .error .InvalidDateRange ∧
    ∃ l, initialize_lease 1 100 "L1" zeroDigest 2 1000 500 1000 2000 255
          = .ok l ∧
      l.status = .Pending ∧ l.manager_signed = false ∧
      l.tenant_signed = false ∧ l.manager_signature = zeroDigest ∧
      l.tenant_signature = zeroDigest ∧ l.created_at = 100 ∧
      l.activated_at = 0 ∧ l.manager_wallet = 1 ∧
      l.tenant_wallet = 2 ∧ verify_lease l = .ok false :=
  ⟨(initialize_validation_order 1 100 (String.mk (List.replicate 65 'a'))
      zeroDigest 2 1000 500 1000 2000 255).1 (by decide),
   (initialize_validation_order 1 100 "L1" zeroDigest 2 0 500 1000 2000
      255).2.1 (by decide) rfl,
   (initialize_validation_order 1 100 "L1" zeroDigest 2 1000 500 2000 1000
      255).2.2.1 (by decide) (by decide) (by decide),
   (initialize_validation_order 1 100 "L1" zeroDigest 2 1000 500 1000 2000
      255).2.2.2 (by decide) (by decide) (by decide)⟩

/-- C9: a failing `sign_lease` or `update_lease_status` leaves every field of
the record unchanged, and `verify_lease` never returns an error (a failing
`initialize_lease` returns no record at all in this embedding). -/
theorem error_implies_no_mutation (l : Lease) (signer : Nat) (now : Int)
    (sig : Digest) (ns : LeaseStatus) :
    (∀ e, (sign_lease signer now sig l).1 = .error e →
      (sign_lease signer now sig l).2 = l) ∧
    (∀ e, (update_lease_status signer now ns l).1 = .error e →
      (update_lease_status signer now ns l).2 = l) ∧
    (∀ e, ¬ verify_lease l = .error e) := by
  refine ⟨fun e he => sign_error_frame he,
          fun e he => update_error_frame he,
          fun e => ?_⟩
  unfold verify_lease
  exact fun h => by cases h

/-- C9 witness: an unauthorized signer error on the concrete pending lease
leaves it unchanged. -/
theorem error_implies_no_mutation_witness :
    (sign_lease 99 0 sigOne leaseP).2 = leaseP ∧
    (update_lease_status 99 0 .Terminated leaseP).2 = leaseP ∧
    ¬ verify_lease leaseP = .error .UnauthorizedSigner :=
  ⟨(error_implies_no_mutation leaseP 99 0 sigOne .Terminated).1
      .UnauthorizedSigner (by rfl),
   (error_implies_no_mutation leaseP 99 0 sigOne .Terminated).2.1
      .UnauthorizedSigner (by rfl),
   (error_implies_no_mutation leaseP 99 0 sigOne .Terminated).2.2
      .UnauthorizedSigner⟩

/-- C4: in every record state reachable from `initialize_lease` by successful
`sign_lease` and `update_lease_status` calls, Active status implies both
parties signed, and Pending status implies `activated_at = 0`. -/
theorem reachable_status_invariants (l : Lease) (h : Reachable l) :
    (l.status = .Active → l.manager_signed = true ∧ l.tenant_signed = true) ∧
    (l.status = .Pending → l.activated_at = 0) := by
  obtain ⟨l0, hinit, hreach⟩ := h
  have hreach' : Relation.ReflTransGen Step l0 l := hreach
  clear hreach
  induction hreach' with
  | refl =>
    obtain ⟨m, n, lid, lh, tw, mr, sd, st, ed, bp, hi⟩ := hinit
    obtain ⟨-, -, -, rfl⟩ := initialize_ok_inv hi
    exact ⟨fun hs => (nomatch hs), fun _ => rfl⟩
  | @tail b c hab hbc ih =>
    cases hbc with
    | sign signer now sig hok =>
      obtain ⟨hp, m, heq, hres⟩ := sign_ok_inv hok
      rcases signBranch_ok_inv heq with ⟨-, -, rfl⟩ | ⟨-, -, -, rfl⟩ <;>
        rcases hres with ⟨h1, h2, rfl⟩ | ⟨hno, rfl⟩
      · exact ⟨fun _ => ⟨h1, h2⟩, fun hs => (nomatch hs)⟩
      · refine ⟨fun hs => ?_, fun _ => ih.2 hp⟩
        have hs' : b.status = .Active := hs
        rw [hp] at hs'
        cases hs'
      · exact ⟨fun _ => ⟨h1, h2⟩, fun hs => (nomatch hs)⟩
      · refine ⟨fun hs => ?_, fun _ => ih.2 hp⟩
        have hs' : b.status = .Active := hs
        rw [hp] at hs'
        cases hs'
    | update signer now ns hok =>
      obtain ⟨-, -, hns, rfl⟩ := update_ok_inv hok
      rcases hns with rfl | ⟨rfl, -⟩
      · exact ⟨fun hs => (nomatch hs), fun hs => (nomatch hs)⟩
      · exact ⟨fun hs => (nomatch hs), fun hs => (nomatch hs)⟩

/-- C4 witness: the invariants instantiated at the concrete freshly
initialized lease, which is reachable in zero steps. -/
theorem reachable_status_invariants_witness :
    (leaseP.status = .Active →
      leaseP.manager_signed = true ∧ leaseP.tenant_signed = true) ∧
    (leaseP.status = .Pending → leaseP.activated_at = 0) :=
  reachable_status_invariants leaseP
    ⟨leaseP, ⟨1, 100, "L1", zeroDigest, 2, 1000, 500, 1000, 2000, 255, rfl⟩,
     Relation.ReflTransGen.refl⟩

/-- C6 counterexample: signing with the all-zero `signature_hash` yields a
reachable state whose `manager_signed` flag is true while `manager_signature`
is all-zero, so the claimed iff fails for that supplied hash. -/
theorem signature_nonzero_iff_signed_cex :
    Reachable leaseZ ∧ leaseZ.manager_signed = true ∧
    leaseZ.manager_signature = zeroDigest ∧
    ¬ (¬ leaseZ.manager_signature = zeroDigest ↔
        leaseZ.manager_signed = true) :=
  ⟨⟨leaseP,
    ⟨1, 100, "L1", zeroDigest, 2, 1000, 500, 1000, 2000, 255, rfl⟩,
    Relation.ReflTransGen.single (Step.sign 1 150 zeroDigest (by rfl))⟩,
   rfl, rfl, fun hiff => hiff.mpr rfl rfl⟩

/-- C6 (amended): in every record state reachable when all supplied signature
hashes are non-zero, each signature field is non-zero iff its corresponding
signed flag is true. -/
theorem signature_nonzero_iff_signed (l : Lease) (h : ReachableNZ l) :
    (¬ l.manager_signature = zeroDigest ↔ l.manager_signed = true) ∧
    (¬ l.tenant_signature = zeroDigest ↔ l.tenant_signed = true) := by
  obtain ⟨l0, hinit, hreach⟩ := h
  induction hreach with
  | refl =>
    obtain ⟨m, n, lid, lh, tw, mr, sd, st, ed, bp, hi⟩ := hinit
    obtain ⟨-, -, -, rfl⟩ := initialize_ok_inv hi
    constructor <;> constructor
    · exact fun hnz => absurd rfl hnz
    · exact fun hf => (by cases hf)
    · exact fun hnz => absurd rfl hnz
    · exact fun hf => (by cases hf)
  | @tail b c hab hbc ih =>
    cases hbc with
    | sign signer now sig hnz hok =>
      obtain ⟨hp, m, heq, hres⟩ := sign_ok_inv hok
      have hbase :
          (¬ m.manager_signature = zeroDigest ↔ m.manager_signed = true) ∧
          (¬ m.tenant_signature = zeroDigest ↔ m.tenant_signed = true) := by
        rcases signBranch_ok_inv heq with ⟨-, -, rfl⟩ | ⟨-, -, -, rfl⟩
        · exact ⟨⟨fun _ => rfl, fun _ => hnz⟩, ih.2⟩
        · exact ⟨ih.1, ⟨fun _ => rfl, fun _ => hnz⟩⟩
      rcases hres with ⟨-, -, rfl⟩ | ⟨-, rfl⟩
      · exact hbase
      · exact hbase
    | update signer now ns hok =>
      obtain ⟨-, -, -, rfl⟩ := update_ok_inv hok
      exact ih

/-- C6 witness: the invariant instantiated at the state reached by one
non-zero-hash manager signature. -/
theorem signature_nonzero_iff_signed_witness :
    (¬ leaseM.manager_signature = zeroDigest ↔
      leaseM.manager_signed = true) ∧
    (¬ leaseM.tenant_signature = zeroDigest ↔
      leaseM.tenant_signed = true) :=
  signature_nonzero_iff_signed leaseM
    ⟨leaseP,
     ⟨1, 100, "L1", zeroDigest, 2, 1000, 500, 1000, 2000, 255, rfl⟩,
     Relation.ReflTransGen.single
       (StepNZ.sign 1 150 sigOne (by decide) (by rfl))⟩

/-- C5 counterexample: a concrete `initialize_lease` call whose supplied
counter-party equals the caller succeeds and yields a record with
`manager_wallet = tenant_wallet`. -/
theorem initialize_equal_identities_cex :
    ∃ l, initialize_lease 7 100 "L1" zeroDigest 7 1000 500 1000 2000 255
          = .ok l ∧ l.manager_wallet = l.tenant_wallet :=
  ⟨_, rfl, rfl⟩

/-- C5 (amended): `initialize_lease` performs no distinctness check on the two
identities — whenever the supplied counter-party equals the caller and the
three value preconditions hold, it succeeds and produces a record whose
`manager_wallet` equals its `tenant_wallet`. -/
theorem initialize_no_distinctness_check (caller : Nat) (now : Int)
    (lease_id : String) (lease_hash : Digest)
    (monthly_rent security_deposit : Nat) (start_date end_date : Int)
    (bump : Nat)
    (h1 : lease_id.length ≤ 64) (h2 : 0 < monthly_rent)
    (h3 : start_date < end_date) :
    ∃ l, initialize_lease caller now lease_id lease_hash caller
          monthly_rent security_deposit start_date end_date bump = .ok l ∧
      l.manager_wallet = caller ∧ l.tenant_wallet = caller ∧
      l.manager_wallet = l.tenant_wallet := by
  refine ⟨{ lease_id := lease_id, lease_hash := lease_hash,
            manager_wallet := caller, tenant_wallet := caller,
            monthly_rent := monthly_rent,
            security_deposit := security_deposit,
            start_date := start_date, end_date := end_date,
            manager_signed := false, tenant_signed := false,
            manager_signature := zeroDigest,
            tenant_signature := zeroDigest,
            status := .Pending, created_at := now, activated_at := 0,
            bump := bump },
    ?_, rfl, rfl, rfl⟩
  unfold initialize_lease
  rw [if_pos h1, if_pos h2, if_pos h3]

/-- C5 witness: the amended claim evaluated at a concrete self-dealing
initialization. -/
theorem initialize_no_distinctness_check_witness :
    ∃ l, initialize_lease 9 100 "L2" zeroDigest 9 1000 500 1000 2000 255
          = .ok l ∧
      l.manager_wallet = 9 ∧ l.tenant_wallet = 9 ∧
      l.manager_wallet = l.tenant_wallet :=
  initialize_no_distinctness_check 9 100 "L2" zeroDigest 1000 500 1000 2000
    255 (by decide) (by decide) (by decide)

/-- C7 counterexample: on a concrete non-Pending record, `sign_lease` by an
identity matching neither party fails with `LeaseNotPending`, not
`UnauthorizedSigner`. -/
theorem sign_unauthorized_nonpending_cex :
    ¬ (99 : Nat) = leaseA.manager_wallet ∧
    ¬ (99 : Nat) = leaseA.tenant_wallet ∧
    sign_lease 99 0 sigOne leaseA = (.error .LeaseNotPending, leaseA) ∧
    ¬ LeaseError.LeaseNotPending = LeaseError.UnauthorizedSigner :=
  ⟨by decide, by decide, by rfl, by decide⟩

/-- C7 (amended): `sign_lease` by an identity matching neither party fails
with `UnauthorizedSigner` on a Pending record and with `LeaseNotPending` on
any other record; in both cases no field of the record changes. -/
theorem sign_unauthorized_by_status (l : Lease) (signer : Nat) (now : Int)
    (sig : Digest)
    (h1 : ¬ signer = l.manager_wallet) (h2 : ¬ signer = l.tenant_wallet) :
    (l.status = .Pending →
      sign_lease signer now sig l = (.error .UnauthorizedSigner, l)) ∧
    (¬ l.status = .Pending →
      sign_lease signer now sig l = (.error .LeaseNotPending, l)) := by
  constructor
  · intro hp
    unfold sign_lease
    rw [if_pos hp]
    unfold signBranch
    rw [if_neg h1, if_neg h2]
  · intro hp
    unfold sign_lease
    rw [if_neg hp]

/-- C7 witness: concrete evaluations of both branches — an outsider on the
pending lease and on the active lease. -/
theorem sign_unauthorized_by_status_witness :
    sign_lease 99 0 sigOne leaseP = (.error .UnauthorizedSigner, leaseP) ∧
    sign_lease 99 0 sigOne leaseA = (.error .LeaseNotPending, leaseA) :=
  ⟨(sign_unauthorized_by_status leaseP 99 0 sigOne (by decide)
      (by decide)).1 (by rfl),
   (sign_unauthorized_by_status leaseA 99 0 sigOne (by decide)
      (by decide)).2 (by decide)⟩

/-- C10: for a record initialized with `manager_wallet = tenant_wallet`, every
reachable state still has the identities equal, `tenant_signed` false and
status Pending, and any successful `sign_lease` by that shared identity is
matched as the manager (it sets `manager_signed` and leaves `tenant_signed`
false). -/
theorem equal_identity_lease_stuck (l0 l : Lease) (hinit : Initialized l0)
    (heqw : l0.manager_wallet = l0.tenant_wallet)
    (hr : ReachFrom l0 l) :
    l.tenant_signed = false ∧ l.status = .Pending ∧
    l.manager_wallet = l.tenant_wallet ∧
    (∀ now sig l', sign_lease l.manager_wallet now sig l = (.ok (), l') →
      l'.manager_signed = true ∧ l'.tenant_signed = false) := by
  have main : l.tenant_signed = false ∧ l.status = .Pending ∧
      l.manager_wallet = l.tenant_wallet := by
    have hr' : Relation.ReflTransGen Step l0 l := hr
    clear hr
    induction hr' with
    | refl =>
      obtain ⟨m, n, lid, lh, tw, mr, sd, st, ed, bp, hi⟩ := hinit
      obtain ⟨-, -, -, rfl⟩ := initialize_ok_inv hi
      exact ⟨rfl, rfl, heqw⟩
    | @tail b c hab hbc ih =>
      obtain ⟨ih1, ih2, ih3⟩ := ih
      cases hbc with
      | sign signer now sig hok =>
        obtain ⟨hp, m, heq, hres⟩ := sign_ok_inv hok
        rcases signBranch_ok_inv heq with ⟨-, -, rfl⟩ | ⟨hnm, hts, -, -⟩
        · rcases hres with ⟨-, h2, rfl⟩ | ⟨-, rfl⟩
          · have h2' : b.tenant_signed = true := h2
            rw [ih1] at h2'
            exact absurd h2' (by decide)
          · exact ⟨ih1, hp, ih3⟩
        · exact absurd (hts.trans ih3.symm) hnm
      | update signer now ns hok =>
        obtain ⟨-, hact, -, -⟩ := update_ok_inv hok
        rw [ih2] at hact
        exact absurd hact (by decide)
  obtain ⟨h1, h2, h3⟩ := main
  refine ⟨h1, h2, h3, fun now sig l' hok => ?_⟩
  obtain ⟨hp, m, heq, hres⟩ := sign_ok_inv hok
  rcases signBranch_ok_inv heq with ⟨-, -, rfl⟩ | ⟨hnm, -, -, -⟩
  · rcases hres with ⟨-, ht, rfl⟩ | ⟨-, rfl⟩
    · have ht' : l.tenant_signed = true := ht
      rw [h1] at ht'
      exact absurd ht' (by decide)
    · exact ⟨rfl, h1⟩
  · exact absurd rfl hnm

/-- C10 witness: the concrete self-dealing lease, reachable in zero steps
from its own initialization, is stuck Pending and its manager-matched
signature leaves `tenant_signed` false. -/
theorem equal_identity_lease_stuck_witness :
    leaseS.tenant_signed = false ∧ leaseS.status = .Pending ∧
    leaseS.manager_wallet = leaseS.tenant_wallet ∧
    (∀ now sig l',
      sign_lease leaseS.manager_wallet now sig leaseS = (.ok (), l') →
      l'.manager_signed = true ∧ l'.tenant_signed = false) :=
  equal_identity_lease_stuck leaseS leaseS
    ⟨7, 100, "L1", zeroDigest, 7, 1000, 500, 1000, 2000, 255, rfl⟩
    rfl Relation.ReflTransGen.refl
